import Mathlib

/-
Shallow embedding of src/Packages/Python/usage.py (the whole repository).

The script imports three callables from the external `novacore` package and
runs three guarded blocks in sequence (lines 5-9, 12-16, 19-23), each of the
shape

    try:
        <call>()
    except Exception as e:
        print("Something went wrong, Here" + chr(39) + "s a preview for developers:" + "\n" + e)
        sys.exit(1)

followed by three unguarded calls with an explicit path argument
(lines 30-32):

    login(path)
    login_noexit(path)
    login_silent(path)

The collaborator is external, so its behaviour is a parameter of the model:
each guarded call either returns normally, raises an object whose class
derives from Exception, or raises an object deriving from BaseException but
not Exception (SystemExit, KeyboardInterrupt).  Python 3 facts embedded
below, each used where the matching comment points at it:
  - `except Exception as e` catches exactly the Exception-derived raises;
  - `str.__add__` concatenates when the right operand is a str instance
    (which an Exception subclass may also be, via multiple inheritance such
    as `class E(str, Exception)`) and raises TypeError otherwise;
  - an exception that is not caught terminates the process: status 1 with a
    traceback on stderr for an Exception, the carried code for SystemExit;
  - evaluating an unbound name raises NameError;
  - a module that runs to its end terminates the process with status 0.
-/

namespace NovaUsage

/-- The object bound by `except Exception as e`: an instance of an
Exception-derived class.  `isStr` records whether its class also derives
from `str` (possible in Python via multiple inheritance), which is what
decides whether `str + e` concatenates or raises TypeError.  `text` is its
str content. -/
structure ExcVal where
  isStr : Bool
  text : String
deriving DecidableEq

/-- A raised object deriving from BaseException but not from Exception:
invisible to `except Exception`. -/
inductive BaseExc where
  | systemExit (code : Int)
  | keyboardInterrupt
deriving DecidableEq

/-- What one collaborator call does when invoked. -/
inductive Outcome where
  | returns
  | raises (e : ExcVal)
  | raisesBase (bx : BaseExc)
deriving DecidableEq

/-- Collaborator behaviour for the three guarded calls of usage.py
(lines 6, 13 and 20).  The path-override calls of lines 30-32 need no
behaviour: evaluating their argument raises NameError before any of them is
invoked (see `tailStmts`). -/
structure Behavior where
  login : Outcome
  login_silent : Outcome
  login_noexit : Outcome
deriving DecidableEq

/-- How the process ends. -/
inductive Term where
  /-- Execution fell off the end of the module: exit status 0. -/
  | normalExit
  /-- `sys.exit(code)` was executed. -/
  | sysExit (code : Int)
  /-- An Exception-derived raise left the module uncaught (`err` names its
  class, such as TypeError or NameError): traceback on stderr, status 1. -/
  | uncaught (err : String)
  /-- A BaseException-only raise left the module uncaught. -/
  | uncaughtBase (bx : BaseExc)
deriving DecidableEq

/-- The exit status the operating system observes for each way the process
ends.  CPython exits with status 1 on any unhandled Exception-derived raise;
an unhandled SystemExit carries its own code; an unhandled
KeyboardInterrupt also ends the interpreter with status 1 (after a
traceback). -/
def exitStatus : Term → Int
  | .normalExit => 0
  | .sysExit c => c
  | .uncaught _ => 1
  | .uncaughtBase (.systemExit c) => c
  | .uncaughtBase .keyboardInterrupt => 1

/-- Everything observable about one run of the script: the collaborator
invocations in order (each with its optional explicit path argument), the
arguments successfully passed to `print` (stdout), and how the process
ended. -/
structure RunOut where
  calls : List (String × Option String)
  stdout : List String
  term : Term
deriving DecidableEq

/-- The diagnostic head of line 8 (also lines 15 and 22):
`"Something went wrong, Here's a preview for developers:"` (the sixth
word of the literal is Here + chr 39 + s). -/
def diagHead : String :=
  "Something went wrong, Here" ++ String.singleton (Char.ofNat 39)
    ++ "s a preview for developers:"

/-- Python `+` with a `str` left operand and the caught exception object on
the right: concatenation when the object is also a str instance, TypeError
otherwise (`can only concatenate str (not ...) to str`). -/
def strAdd (s : String) (e : ExcVal) : Except Unit String :=
  if e.isStr then .ok (s ++ e.text) else .error ()

/-- One guarded block of usage.py (lines 5-9; lines 12-16 and 19-23 are
the same block around the other two calls).  Yields the lines printed to
stdout, and `none` when control flows past the block or `some t` when the
process terminates inside it:
  - the call returns: nothing printed, control continues;
  - the call raises an Exception-derived `e`: the handler evaluates
    `diagHead + "\n" + e` as the argument of `print`; if `e` is a str
    instance this prints the concatenation and then `sys.exit(1)` runs,
    otherwise the concatenation raises TypeError, so `print` never runs and
    neither does `sys.exit(1)` — the TypeError leaves the module uncaught;
  - the call raises a BaseException-only object: `except Exception` does
    not match, the raise leaves the module uncaught. -/
def guardedBlock (o : Outcome) : List String × Option Term :=
  match o with
  | .returns => ([], none)
  | .raises e =>
      match strAdd (diagHead ++ "\n") e with
      | .ok s => ([s], some (.sysExit 1))
      | .error _ => ([], some (.uncaught "TypeError"))
  | .raisesBase bx => ([], some (.uncaughtBase bx))

/-- The module-level names bound by the time line 30 runs: lines 1-2 import
`login`, `login_silent`, `login_noexit` and `sys`, and no other statement of
usage.py binds a name (`e` is unbound again after each except block ends).
In particular `path` is nowhere assigned. -/
def boundNames : List String := ["login", "login_silent", "login_noexit", "sys"]

/-- Lines 30-32, `login(path); login_noexit(path); login_silent(path)`,
outside every try block.  Python evaluates the argument `path` before the
call: when the name is unbound this raises NameError, uncaught, before any
collaborator call is made — so the branch in which the three calls run with
a forwarded path value, and the module then falls off its end, is dead code
of the model (nothing binds `path`, and the model carries no value for it,
hence the placeholder argument in that branch). -/
def tailStmts : List (String × Option String) × Term :=
  if boundNames.contains "path" then
    ([("login", some "path"), ("login_noexit", some "path"),
      ("login_silent", some "path")], .normalExit)
  else
    ([], .uncaught "NameError")

/-- The whole script as a function of collaborator behaviour: block 1
around `login()`, then — only if control flowed past it — block 2 around
`login_silent()`, then block 3 around `login_noexit()`, then the unguarded
tail of lines 30-32.  Each block records its collaborator invocation (no
explicit path: the guarded calls use the default config/config.json) and
its printed lines. -/
def run (b : Behavior) : RunOut :=
  match guardedBlock b.login with
  | (o1, some t) => { calls := [("login", none)], stdout := o1, term := t }
  | (o1, none) =>
    match guardedBlock b.login_silent with
    | (o2, some t) =>
        { calls := [("login", none), ("login_silent", none)],
          stdout := o1 ++ o2, term := t }
    | (o2, none) =>
      match guardedBlock b.login_noexit with
      | (o3, some t) =>
          { calls := [("login", none), ("login_silent", none),
                      ("login_noexit", none)],
            stdout := o1 ++ o2 ++ o3, term := t }
      | (o3, none) =>
          { calls := [("login", none), ("login_silent", none),
                      ("login_noexit", none)] ++ tailStmts.1,
            stdout := o1 ++ o2 ++ o3, term := tailStmts.2 }

/-! Helper lemmas shared by the claim theorems. -/

/-- The tail of lines 30-32 always takes the NameError branch: `path` is not
among the bound names. -/
theorem tailStmts_eq : tailStmts = ([], Term.uncaught "NameError") := rfl

/-- The collaborator invocations of a run, in closed form: `login` always,
`login_silent` only when the first block fell through, `login_noexit` only
when the second also did; never a fourth call and never an explicit path. -/
theorem run_calls (b : Behavior) :
    (run b).calls =
      ("login", (none : Option String)) ::
        (if b.login = Outcome.returns then
          ("login_silent", (none : Option String)) ::
            (if b.login_silent = Outcome.returns then
              [("login_noexit", (none : Option String))]
            else [])
        else []) := by
  obtain ⟨o1, o2, o3⟩ := b
  cases o1 with
  | raises e => obtain ⟨i, t⟩ := e; cases i <;> rfl
  | raisesBase b1 => rfl
  | returns =>
    cases o2 with
    | raises e => obtain ⟨i, t⟩ := e; cases i <;> rfl
    | raisesBase b2 => rfl
    | returns =>
      cases o3 with
      | raises e => obtain ⟨i, t⟩ := e; cases i <;> rfl
      | raisesBase b3 => rfl
      | returns => rfl

/-- No run falls off the end of the module: every control path ends in
`sys.exit(1)`, an uncaught TypeError, an uncaught BaseException, or the
uncaught NameError of line 30. -/
theorem run_term_ne_normal (b : Behavior) : (run b).term ≠ Term.normalExit := by
  obtain ⟨o1, o2, o3⟩ := b
  cases o1 with
  | raises e => obtain ⟨i, t⟩ := e; cases i <;> exact fun h => nomatch h
  | raisesBase b1 => exact fun h => nomatch h
  | returns =>
    cases o2 with
    | raises e => obtain ⟨i, t⟩ := e; cases i <;> exact fun h => nomatch h
    | raisesBase b2 => exact fun h => nomatch h
    | returns =>
      cases o3 with
      | raises e => obtain ⟨i, t⟩ := e; cases i <;> exact fun h => nomatch h
      | raisesBase b3 => exact fun h => nomatch h
      | returns => exact fun h => nomatch h

/-! The claims. -/

/-- Claim C1, evidence of the code bug: with `login` raising an ordinary
exception (text "boom", not a str instance), the run makes the one call,
prints nothing to stdout, and ends with the TypeError the handler
concatenation raises — not with the diagnostic line and `sys.exit(1)` the
claim describes. -/
theorem c1_failing_run :
    run ⟨.raises ⟨false, "boom"⟩, .returns, .returns⟩ =
      { calls := [("login", none)], stdout := [],
        term := .uncaught "TypeError" } := rfl

/-- Claim C2, evidence of the code bug: when all three guarded collaborator
calls return normally, the run reaches line 30, where the unbound name
`path` raises an uncaught NameError: exit status 1, not the status 0 the
claim states (stdout does stay empty). -/
theorem c2_failing_run :
    run ⟨.returns, .returns, .returns⟩ =
      { calls := [("login", none), ("login_silent", none), ("login_noexit", none)],
        stdout := [], term := .uncaught "NameError" } ∧
    exitStatus (run ⟨.returns, .returns, .returns⟩).term = 1 :=
  ⟨rfl, rfl⟩

/-- Claim C3, evidence of the code bug: when `login_noexit` returns normally
(a mismatch detected without raising), its boundary does not terminate the
process — the trace shows all three calls completed — but the process does
not continue running normally: it ends with the uncaught NameError of
line 30, a nonzero exit. -/
theorem c3_failing_run :
    (run ⟨.returns, .returns, .returns⟩).calls =
      [("login", none), ("login_silent", none), ("login_noexit", none)] ∧
    (run ⟨.returns, .returns, .returns⟩).term = .uncaught "NameError" ∧
    exitStatus (run ⟨.returns, .returns, .returns⟩).term ≠ 0 :=
  ⟨rfl, rfl, by decide⟩

/-- Claim C4, evidence of the code bug: with `login_silent` raising an
ordinary I/O-style exception, the boundary does catch it, but the handler
then raises TypeError, which propagates out of the script uncaught: no
message is printed and `sys.exit(1)` never runs, contradicting "always
terminated locally with a printed message and exit code 1". -/
theorem c4_failing_run :
    run ⟨.returns, .raises ⟨false, "io failure"⟩, .returns⟩ =
      { calls := [("login", none), ("login_silent", none)], stdout := [],
        term := .uncaught "TypeError" } := rfl

/-- Claim C5, evidence of the code bug: `path` is not a bound name, and in
every run every collaborator invocation carries no explicit path argument —
the path-override calls of lines 30-32 never execute, so no path is ever
forwarded. -/
theorem c5_no_path_forwarded (b : Behavior) :
    boundNames.contains "path" = false ∧
    ((run b).calls.all fun c => c.2 == none) = true := by
  refine ⟨rfl, ?_⟩
  rw [run_calls]
  split_ifs <;> rfl

/-- Claim C6: the collaborator invocations of any run are exactly `login`,
then `login_silent` only if the first block fell through, then
`login_noexit` only if the second also did — the fixed order, each guarded
call with the default path, and nothing after a block that terminated the
process. -/
theorem c6_call_order (b : Behavior) :
    (run b).calls =
      ("login", (none : Option String)) ::
        (if b.login = Outcome.returns then
          ("login_silent", (none : Option String)) ::
            (if b.login_silent = Outcome.returns then
              [("login_noexit", (none : Option String))]
            else [])
        else []) :=
  run_calls b

/-- Claim C7: determinism — two runs under identical collaborator behaviour
produce identical stdout and the same exit status. -/
theorem c7_deterministic (b1 b2 : Behavior) (h : b1 = b2) :
    (run b1).stdout = (run b2).stdout ∧
    exitStatus (run b1).term = exitStatus (run b2).term := by
  subst h; exact ⟨rfl, rfl⟩

theorem c7_deterministic_witness :
    (run ⟨.returns, .returns, .returns⟩).stdout =
        (run ⟨.returns, .returns, .returns⟩).stdout ∧
    exitStatus (run ⟨.returns, .returns, .returns⟩).term =
        exitStatus (run ⟨.returns, .returns, .returns⟩).term :=
  c7_deterministic ⟨.returns, .returns, .returns⟩ ⟨.returns, .returns, .returns⟩ rfl

/-- Claim C8: in each of the three handlers, when the caught exception is
not itself a str instance, the concatenation in the print argument raises
TypeError: the run prints nothing to stdout and terminates with that
uncaught TypeError — never reaching the print output or the `sys.exit(1)`
of the handler.  Stated for the handler in each of the three positions. -/
theorem c8_handler_type_error (e : ExcVal) (h : e.isStr = false) (o2 o3 : Outcome) :
    run ⟨.raises e, o2, o3⟩ =
      { calls := [("login", none)], stdout := [],
        term := .uncaught "TypeError" } ∧
    run ⟨.returns, .raises e, o3⟩ =
      { calls := [("login", none), ("login_silent", none)], stdout := [],
        term := .uncaught "TypeError" } ∧
    run ⟨.returns, .returns, .raises e⟩ =
      { calls := [("login", none), ("login_silent", none), ("login_noexit", none)],
        stdout := [], term := .uncaught "TypeError" } := by
  obtain ⟨i, t⟩ := e
  cases h
  exact ⟨rfl, rfl, rfl⟩

theorem c8_handler_type_error_witness :
    (⟨false, "x"⟩ : ExcVal).isStr = false ∧
    run ⟨.raises ⟨false, "x"⟩, .returns, .returns⟩ =
      { calls := [("login", none)], stdout := [],
        term := .uncaught "TypeError" } :=
  ⟨rfl, (c8_handler_type_error ⟨false, "x"⟩ rfl .returns .returns).1⟩

/-- Claim C9: `path` is bound nowhere in the script; every run whose three
guarded calls return normally reaches line 30 and dies there with an
uncaught NameError; and no run whatsoever falls off the end of the module,
the only way to terminate normally with status 0. -/
theorem c9_path_unbound :
    boundNames.contains "path" = false ∧
    (∀ b : Behavior, b.login = .returns → b.login_silent = .returns →
        b.login_noexit = .returns → (run b).term = .uncaught "NameError") ∧
    ∀ b : Behavior, (run b).term ≠ Term.normalExit := by
  refine ⟨rfl, ?_, run_term_ne_normal⟩
  intro b h1 h2 h3
  obtain ⟨o1, o2, o3⟩ := b
  cases h1; cases h2; cases h3
  rfl

/-- Claim C10: a BaseException-only raise (SystemExit, KeyboardInterrupt)
from any of the three guarded calls is not matched by `except Exception`: no
diagnostic is printed, the handler and its `sys.exit(1)` never run, and the
process terminates carrying that very exception — for SystemExit with code
c, with exit status c. -/
theorem c10_base_exc_not_caught (bx : BaseExc) (o2 o3 : Outcome) :
    ((run ⟨.raisesBase bx, o2, o3⟩).stdout = [] ∧
      (run ⟨.raisesBase bx, o2, o3⟩).term = .uncaughtBase bx) ∧
    ((run ⟨.returns, .raisesBase bx, o3⟩).stdout = [] ∧
      (run ⟨.returns, .raisesBase bx, o3⟩).term = .uncaughtBase bx) ∧
    ((run ⟨.returns, .returns, .raisesBase bx⟩).stdout = [] ∧
      (run ⟨.returns, .returns, .raisesBase bx⟩).term = .uncaughtBase bx) ∧
    ∀ c : Int, exitStatus (.uncaughtBase (.systemExit c)) = c :=
  ⟨⟨rfl, rfl⟩, ⟨rfl, rfl⟩, ⟨rfl, rfl⟩, fun _ => rfl⟩

end NovaUsage
